import Mathlib

/-!
Verification development for the yahoo-services repository.

A shallow embedding of the core subsystems:
  * `RateLimiter` (src/services/rate_limiter.py): multi-window quota
    counters, concurrency accounting, exponential backoff delays;
  * `CacheService` (src/services/cache_service.py): keyed TTL store with
    per-category TTL defaults and degrade-on-error semantics;
  * `YahooFinanceService._make_request` / `_convert_symbol`
    (src/services/yahoo_finance_service.py): the fetch orchestrator;
  * `get_global_context` (src/api/routes/global_context.py): batch
    aggregation with critical-key failure policy.

Python wall-clock time is modelled as explicit parameters: `Nat` seconds
since the epoch for `datetime.now()`-based window arithmetic, and `ℚ`
seconds for `time.time()`-based delay arithmetic.  Python floats in the
delay computation are modelled as exact rationals.  Fallible operations
return `Except`; every `try/except Exception` block in the source becomes
a total function whose error branch produces the caught-and-degraded
value.
-/

namespace YahooServices

/-- Rate limiting strategies (`RateLimitStrategy` in rate_limiter.py). -/
inductive RateLimitStrategy
  | fixed_delay
  | exponential_backoff
  | token_bucket
  | sliding_window
deriving DecidableEq, Repr

/-- Rate limit configuration (`RateLimitConfig` in rate_limiter.py),
with the source's default values. -/
structure RateLimitConfig where
  daily_limit : Nat := 2000
  hourly_limit : Nat := 100
  minute_limit : Nat := 10
  delay_between_requests : ℚ := 1
  max_concurrent_requests : Nat := 20
  strategy : RateLimitStrategy := RateLimitStrategy.fixed_delay
  retry_attempts : Nat := 3
  backoff_multiplier : ℚ := 2
deriving DecidableEq, Repr

/-- Mutable state of a `RateLimiter` instance.  Window-reset timestamps
follow the source: `last_reset_daily` stores a day number
(`datetime.date`), `last_reset_hourly` and `last_reset_minute` store
epoch seconds floored to the hour resp. minute boundary.
`last_request_time` and `last_error_time` are `time.time()` values. -/
structure RateLimiterState where
  initialized : Bool := false
  daily_requests : Nat := 0
  hourly_requests : Nat := 0
  minute_requests : Nat := 0
  last_request_time : ℚ := 0
  last_reset_daily : Nat := 0
  last_reset_hourly : Nat := 0
  last_reset_minute : Nat := 0
  active_requests : Int := 0
  consecutive_errors : Nat := 0
  last_error_time : ℚ := 0
  total_requests : Nat := 0
  total_errors : Nat := 0
  total_delays : Nat := 0
deriving DecidableEq, Repr

/-- Model of `RateLimiter.initialize`: sets `_initialized = True` (the
body cannot fail; the `except` branch is unreachable). -/
def initLimiter (s : RateLimiterState) : RateLimiterState :=
  { s with initialized := true }

/-- Model of `RateLimiter._reset_counters_if_needed`, at wall-clock time
`now` in epoch seconds: each window counter is zeroed when the clock has
crossed that window's boundary, and the boundary timestamp advances to
the current day / top of hour / top of minute. -/
def resetCountersIfNeeded (s : RateLimiterState) (now : Nat) : RateLimiterState :=
  let s1 := if now / 86400 ≠ s.last_reset_daily then
              { s with daily_requests := 0, last_reset_daily := now / 86400 }
            else s
  let s2 := if s1.last_reset_hourly + 3600 ≤ now then
              { s1 with hourly_requests := 0, last_reset_hourly := now / 3600 * 3600 }
            else s1
  if s2.last_reset_minute + 60 ≤ now then
    { s2 with minute_requests := 0, last_reset_minute := now / 60 * 60 }
  else s2

/-- Model of `RateLimiter.acquire_permit` at wall-clock time `now`.
Raises `RuntimeError` when not initialized; otherwise lazily resets the
window counters, returns `false` if any counter is at or above its
limit, and otherwise acquires the concurrency semaphore (which in this
sequential model always eventually succeeds), increments
`active_requests` and returns `true`. -/
def acquirePermit (cfg : RateLimitConfig) (s : RateLimiterState) (now : Nat) :
    Except String (RateLimiterState × Bool) :=
  if s.initialized = false then
    Except.error "Rate limiter not initialized"
  else
    let s' := resetCountersIfNeeded s now
    if cfg.daily_limit ≤ s'.daily_requests then Except.ok (s', false)
    else if cfg.hourly_limit ≤ s'.hourly_requests then Except.ok (s', false)
    else if cfg.minute_limit ≤ s'.minute_requests then Except.ok (s', false)
    else Except.ok ({ s' with active_requests := s'.active_requests + 1 }, true)

/-- Model of `RateLimiter.release_permit`. -/
def releasePermit (s : RateLimiterState) : RateLimiterState :=
  { s with active_requests := s.active_requests - 1 }

/-- Model of `RateLimiter.record_request`: increments the global and
per-window counters unconditionally; resets `consecutive_errors` on
success and increments it (stamping `last_error_time := now`) on
failure. -/
def recordRequest (s : RateLimiterState) (success : Bool) (now : ℚ) : RateLimiterState :=
  let s' := { s with
    total_requests := s.total_requests + 1
    daily_requests := s.daily_requests + 1
    hourly_requests := s.hourly_requests + 1
    minute_requests := s.minute_requests + 1 }
  if success then { s' with consecutive_errors := 0 }
  else { s' with
    total_errors := s'.total_errors + 1
    consecutive_errors := s'.consecutive_errors + 1
    last_error_time := now }

/-- The amount slept by `RateLimiter.wait_if_needed` when called at
`time.time() = now`: zero when at least `delay_between_requests` seconds
have elapsed since the last request; otherwise the remaining delay,
multiplied under the exponential-backoff strategy (when
`consecutive_errors > 0`) by `backoff_multiplier ^ min(consecutive_errors, 5)`. -/
def waitDelay (cfg : RateLimitConfig) (s : RateLimiterState) (now : ℚ) : ℚ :=
  let time_since_last := now - s.last_request_time
  if time_since_last < cfg.delay_between_requests then
    let delay_needed := cfg.delay_between_requests - time_since_last
    if cfg.strategy = RateLimitStrategy.exponential_backoff ∧ 0 < s.consecutive_errors then
      delay_needed * cfg.backoff_multiplier ^ min s.consecutive_errors 5
    else delay_needed
  else 0

/-- State transition of `RateLimiter.wait_if_needed` called at
`time.time() = now`: `total_delays` is incremented exactly when a sleep
happens, and `last_request_time` is set to the time after the sleep
(modelled as `now` plus the slept amount). -/
def waitStep (cfg : RateLimitConfig) (s : RateLimiterState) (now : ℚ) : RateLimiterState :=
  if now - s.last_request_time < cfg.delay_between_requests then
    { s with total_delays := s.total_delays + 1
             last_request_time := now + waitDelay cfg s now }
  else { s with last_request_time := now }

/-- Per-service request statistics held by `YahooFinanceService`
(`total_requests` / `successful_requests` / `failed_requests`). -/
structure FetchStats where
  total_requests : Nat := 0
  successful_requests : Nat := 0
  failed_requests : Nat := 0
deriving DecidableEq, Repr

/-- Model of `YahooFinanceService._make_request`.  `upstream` is the
value produced by `_execute_request`, which wraps the provider call in
its own `try/except` and hence never raises: an upstream failure or
unusable payload surfaces as `none`.  The outer `try/except Exception`
of `_make_request` catches the `RuntimeError` from an uninitialized
limiter and the `Exception("Rate limit exceeded")` raised on permit
denial, records a failed request and returns `None`; on the granted
path it waits, runs the upstream call, records a successful request,
and the `finally` block releases the permit.  `dnow` is the
`datetime.now()` clock in epoch seconds, `tnow` the `time.time()`
clock. -/
def makeRequest {α : Type} (cfg : RateLimitConfig) (s : RateLimiterState)
    (fs : FetchStats) (dnow : Nat) (tnow : ℚ) (upstream : Option α) :
    RateLimiterState × FetchStats × Option α :=
  match acquirePermit cfg s dnow with
  | Except.error _ =>
      (recordRequest s false tnow,
       { fs with total_requests := fs.total_requests + 1
                 failed_requests := fs.failed_requests + 1 },
       none)
  | Except.ok (s1, false) =>
      (recordRequest s1 false tnow,
       { fs with total_requests := fs.total_requests + 1
                 failed_requests := fs.failed_requests + 1 },
       none)
  | Except.ok (s1, true) =>
      let s2 := waitStep cfg s1 tnow
      let s3 := recordRequest s2 true tnow
      (releasePermit s3,
       { fs with total_requests := fs.total_requests + 1
                 successful_requests := fs.successful_requests + 1 },
       upstream)

/-- Model of `YahooFinanceService._convert_symbol`, with the configured
`indian_symbol_suffix` passed explicitly (source default `".NS"`): for
market `"IN"`, a symbol not already ending in `".NS"` or `".BO"` gets
the suffix appended; every other symbol is returned unchanged. -/
def convertSymbol (indianSuffix : String) (symbol : String) (market : String) : String :=
  if market = "IN" ∧
     ¬ (".NS".data <:+ symbol.data ∨ ".BO".data <:+ symbol.data) then
    symbol ++ indianSuffix
  else symbol

/-!  Cache layer (src/services/cache_service.py).  Stored payloads are
JSON objects; `json.dumps` followed by `json.loads` is the identity on
them, so the store is modelled as holding the object directly.  A JSON
object is an insertion-ordered association list with unique keys, and
Python dict assignment / `{**d, k: v}` merging is `dictSet`. -/

/-- JSON scalar values, enough to express the cached payloads and the
`_cached_at` / `_cache_ttl` stamps. -/
inductive JVal
  | jstr (s : String)
  | jnum (n : Int)
  | jrat (q : ℚ)
  | jbool (b : Bool)
  | jnull
deriving DecidableEq, Repr

/-- A JSON object: insertion-ordered association list. -/
def JObj : Type := List (String × JVal)

instance : DecidableEq JObj := by
  unfold JObj
  infer_instance

/-- Python dict assignment `d[k] = v` (and the merge `{**d, k: v}`):
replaces the value in place when `k` is present, else appends. -/
def dictSet {α : Type} : List (String × α) → String → α → List (String × α)
  | [], k, v => [(k, v)]
  | (k', v') :: rest, k, v =>
      if k' = k then (k, v) :: rest else (k', v') :: dictSet rest k v

/-- Python dict lookup `d.get(k)`. -/
def dictGet {α : Type} : List (String × α) → String → Option α
  | [], _ => none
  | (k', v') :: rest, k => if k' = k then some v' else dictGet rest k

/-- The `data_with_timestamp` dict built by `CacheService.set`:
`{**data, "_cached_at": now.isoformat(), "_cache_ttl": cache_ttl}`. -/
def stampData (data : JObj) (cachedAtIso : String) (cacheTtl : Int) : JObj :=
  dictSet (dictSet data "_cached_at" (JVal.jstr cachedAtIso)) "_cache_ttl" (JVal.jnum cacheTtl)

/-- Cache configuration (`CacheConfig` in cache_service.py) with the
source's default TTLs, in seconds. -/
structure CacheConfig where
  default_ttl : Int := 1800
  quote_ttl : Int := 300
  historical_ttl : Int := 3600
  fundamental_ttl : Int := 7200
  statement_ttl : Int := 86400
  search_ttl : Int := 1800
deriving DecidableEq, Repr

/-- Model of `CacheService._get_ttl`: the per-category TTL table, with
`default_ttl` for unknown categories. -/
def getTtlFor (cfg : CacheConfig) (data_type : String) : Int :=
  if data_type = "quote" then cfg.quote_ttl
  else if data_type = "historical" then cfg.historical_ttl
  else if data_type = "fundamental" then cfg.fundamental_ttl
  else if data_type = "statement" then cfg.statement_ttl
  else if data_type = "search" then cfg.search_ttl
  else if data_type = "company" then cfg.fundamental_ttl
  else if data_type = "statistics" then cfg.quote_ttl
  else cfg.default_ttl

/-- Model of `CacheService._get_cache_key`. -/
def cacheKey (data_type identifier : String) : String :=
  "yahoo:" ++ data_type ++ ":" ++ identifier

/-- The effective TTL computed by `CacheService.set`:
`cache_ttl = ttl or self._get_ttl(data_type)`.  Python `or` treats both
`None` and `0` as absent. -/
def cacheTtlOf (cfg : CacheConfig) (ttl : Option Int) (data_type : String) : Int :=
  match ttl with
  | none => getTtlFor cfg data_type
  | some t => if t = 0 then getTtlFor cfg data_type else t

/-- Outcome of one call on the underlying Redis store: a value, or a
raised exception (caught by the service's `except Exception` blocks). -/
inductive StoreOutcome (α : Type)
  | ok (a : α)
  | err (msg : String)
deriving DecidableEq, Repr

/-- State of a `CacheService` instance.  The underlying store maps a
cache key to its expiry instant (epoch seconds) and stored object;
Redis-native expiry makes a key invisible once `expiry ≤ now`. -/
structure CacheState where
  initialized : Bool := false
  store : List (String × (Int × JObj)) := []
  hit_count : Nat := 0
  miss_count : Nat := 0
  set_count : Nat := 0
  delete_count : Nat := 0
deriving DecidableEq

/-- Redis `GET` against the modelled store at time `now`: an entry is
returned only while `now < expiry` (native TTL expiry). -/
def storeGet (store : List (String × (Int × JObj))) (key : String) (now : Int) :
    Option JObj :=
  match dictGet store key with
  | none => none
  | some (expiry, v) => if now < expiry then some v else none

/-- Model of `CacheService.get` with the Redis call's outcome passed
explicitly: returns `None` when uninitialized; on a raised store error
the `except` branch degrades to `None`; a present (truthy) value is a
hit, an absent one a miss. -/
def cacheGetWith (st : CacheState) (resp : StoreOutcome (Option JObj)) :
    CacheState × Option JObj :=
  if st.initialized = false then (st, none)
  else
    match resp with
    | StoreOutcome.err _ => (st, none)
    | StoreOutcome.ok (some v) => ({ st with hit_count := st.hit_count + 1 }, some v)
    | StoreOutcome.ok none => ({ st with miss_count := st.miss_count + 1 }, none)

/-- Model of `CacheService.set` with the Redis `SETEX` outcome passed
explicitly: returns `False` when uninitialized or on a raised store
error; on success increments `set_count` and returns `True`. -/
def cacheSetWith (st : CacheState) (resp : StoreOutcome Unit) : CacheState × Bool :=
  if st.initialized = false then (st, false)
  else
    match resp with
    | StoreOutcome.err _ => (st, false)
    | StoreOutcome.ok _ => ({ st with set_count := st.set_count + 1 }, true)

/-- Model of `CacheService.delete` with the Redis `DEL` outcome (number
of keys removed) passed explicitly: returns `False` when uninitialized
or on a raised store error; otherwise increments `delete_count` exactly
when a key was removed and returns `bool(result)`. -/
def cacheDeleteWith (st : CacheState) (resp : StoreOutcome Nat) : CacheState × Bool :=
  if st.initialized = false then (st, false)
  else
    match resp with
    | StoreOutcome.err _ => (st, false)
    | StoreOutcome.ok n =>
        if n ≠ 0 then ({ st with delete_count := st.delete_count + 1 }, true)
        else (st, false)

/-- `CacheService.get` against the (reliable) modelled store at time
`now`: the Redis call returns whatever `storeGet` finds. -/
def cacheGet (st : CacheState) (data_type identifier : String) (now : Int) :
    CacheState × Option JObj :=
  cacheGetWith st (StoreOutcome.ok (storeGet st.store (cacheKey data_type identifier) now))

/-- `CacheService.set` against the (reliable) modelled store at time
`now`: computes the effective TTL, stamps the payload with `_cached_at`
(the ISO clock string `nowIso`) and `_cache_ttl`, and stores it with
expiry `now + cache_ttl`. -/
def cacheSet (cfg : CacheConfig) (st : CacheState) (data_type identifier : String)
    (data : JObj) (ttl : Option Int) (now : Int) (nowIso : String) :
    CacheState × Bool :=
  if st.initialized = false then (st, false)
  else
    let cache_ttl := cacheTtlOf cfg ttl data_type
    let stamped := stampData data nowIso cache_ttl
    let st' := { st with
      store := dictSet st.store (cacheKey data_type identifier) (now + cache_ttl, stamped)
      set_count := st.set_count + 1 }
    (st', true)

/-!  Global-context aggregation (src/api/routes/global_context.py). -/

/-- The fields of one fetched quote that the aggregation reads
(`data.get("price")`, `data.get("change_percent")`). -/
structure QuoteData where
  price : Option ℚ
  change_percent : Option ℚ
deriving DecidableEq, Repr

/-- One entry of the aggregate response: `VIXData(value=...)`,
`ForexData(rate=..., change_percent=...)` or
`MarketData(price=..., change_percent=...)`. -/
inductive CtxEntry
  | vixE (value : ℚ)
  | forexE (rate : ℚ) (change_percent : ℚ)
  | marketE (price : ℚ) (change_percent : ℚ)
deriving DecidableEq, Repr

/-- The `symbol_map` table of `get_global_context`. -/
def symbolMap (s : String) : Option String :=
  if s = "^GSPC" then some "sp500"
  else if s = "^IXIC" then some "nasdaq"
  else if s = "^DJI" then some "dow_jones"
  else if s = "^VIX" then some "vix"
  else if s = "GC=F" then some "gold"
  else if s = "USDINR=X" then some "usd_inr"
  else if s = "CL=F" then some "crude_oil"
  else none

/-- Python `x or 0.0` on an optional number: `None` and `0` both give
`0.0`, which coincides with `Option.getD _ 0`. -/
def orZero (x : Option ℚ) : ℚ := x.getD 0

/-- The response-building loop of `get_global_context` over the zipped
`(symbol, fetched data)` pairs: a symbol whose fetch returned `None` or
whose `price` is `None` joins `failed_symbols`; a symbol outside
`symbol_map` is skipped; otherwise the mapped key is assigned its entry,
with the special shapes for `"vix"` and `"usd_inr"`. -/
def buildResponse : List (String × Option QuoteData) →
    List (String × CtxEntry) × List String
  | [] => ([], [])
  | (symbol, data) :: rest =>
      match data with
      | none =>
          let (resp, failed) := buildResponse rest
          (resp, symbol :: failed)
      | some d =>
          match symbolMap symbol with
          | none => buildResponse rest
          | some key =>
              match d.price with
              | none =>
                  let (resp, failed) := buildResponse rest
                  (resp, symbol :: failed)
              | some p =>
                  let entry :=
                    if key = "vix" then CtxEntry.vixE p
                    else if key = "usd_inr" then CtxEntry.forexE p (orZero d.change_percent)
                    else CtxEntry.marketE p (orZero d.change_percent)
                  let (resp, failed) := buildResponse rest
                  (dictSet resp key entry, failed)

/-- The `required_keys` list of `get_global_context`. -/
def requiredKeys : List String :=
  ["sp500", "nasdaq", "dow_jones", "vix", "gold", "usd_inr", "crude_oil"]

/-- The hardcoded critical-keys set of `get_global_context`. -/
def criticalKeys : List String := ["sp500", "nasdaq", "vix"]

/-- The `missing_keys` computed by `get_global_context`: required keys
absent from the built response, in `required_keys` order. -/
def missingKeys (resp : List (String × CtxEntry)) : List String :=
  requiredKeys.filter (fun k => (dictGet resp k).isNone)

/-- Structured detail of a `ServiceUnavailableException`
(`{"missing": missing_keys, "failed_symbols": failed_symbols}`). -/
structure UnavailableDetail where
  missing : List String
  failed_symbols : List String
deriving DecidableEq, Repr

/-- Model of the aggregation core of `get_global_context`, applied to
the zipped `(symbol, fetched data)` pairs: builds the response, and
raises `ServiceUnavailableException` exactly when some missing required
key is critical; otherwise the call succeeds with the built response
(missing non-critical keys simply absent).  The appended `timestamp`
field lies outside the model. -/
def getGlobalContext (inputs : List (String × Option QuoteData)) :
    Except UnavailableDetail (List (String × CtxEntry)) :=
  let (resp, failed) := buildResponse inputs
  let missing := missingKeys resp
  if missing ≠ [] ∧ missing.any (fun k => criticalKeys.contains k) then
    Except.error ⟨missing, failed⟩
  else
    Except.ok resp

/-!  Concrete fixtures used to instantiate the theorems below. -/

/-- The source-default rate-limit configuration, with the
exponential-backoff strategy selected. -/
def cfgExp : RateLimitConfig := { strategy := RateLimitStrategy.exponential_backoff }

/-- An initialized limiter in its start state. -/
def sInitEmpty : RateLimiterState := initLimiter {}

/-- An initialized limiter after three consecutive recorded failures. -/
def sThreeFailures : RateLimiterState :=
  recordRequest (recordRequest (recordRequest sInitEmpty false 0) false 0) false 0

/-- An initialized limiter whose minute counter sits at the default
minute limit, inside the current minute window. -/
def sMinuteLimited : RateLimiterState :=
  { sInitEmpty with minute_requests := 10, last_reset_minute := 0 }

/-- An initialized limiter carrying two consecutive errors. -/
def sTwoErrors : RateLimiterState := { sInitEmpty with consecutive_errors := 2 }

/-- An initialized cache service over an empty store. -/
def cacheStInit : CacheState := { initialized := true }

/-- A sample fetched payload. -/
def payloadEx : JObj := [("price", JVal.jnum 1)]

/-- Global-context input where every symbol resolves except `^VIX`. -/
def inputsVixMissing : List (String × Option QuoteData) :=
  [("^GSPC", some ⟨some 5000, some 1⟩), ("^IXIC", some ⟨some 18000, some 1⟩),
   ("^DJI", some ⟨some 44000, some 1⟩), ("^VIX", none),
   ("GC=F", some ⟨some 2000, some 1⟩), ("USDINR=X", some ⟨some 83, some 1⟩),
   ("CL=F", some ⟨some 78, some 1⟩)]

/-- Global-context input where only the non-critical `GC=F` (gold)
symbol fails. -/
def inputsGoldMissing : List (String × Option QuoteData) :=
  [("^GSPC", some ⟨some 5000, some 1⟩), ("^IXIC", some ⟨some 18000, some 1⟩),
   ("^DJI", some ⟨some 44000, some 1⟩), ("^VIX", some ⟨some 13, none⟩),
   ("GC=F", none), ("USDINR=X", some ⟨some 83, some 1⟩),
   ("CL=F", some ⟨some 78, some 1⟩)]

/-!  Helper lemmas about the association-list dictionary. -/

theorem dictGet_dictSet_self {α : Type} (m : List (String × α)) (k : String) (v : α) :
    dictGet (dictSet m k v) k = some v := by
  induction m with
  | nil => simp [dictSet, dictGet]
  | cons hd tl ih =>
      obtain ⟨k', v'⟩ := hd
      by_cases h : k' = k
      · simp [dictSet, dictGet, h]
      · simp [dictSet, dictGet, h, ih]

theorem dictGet_dictSet_ne {α : Type} (m : List (String × α)) (k k' : String) (v : α)
    (h : k' ≠ k) : dictGet (dictSet m k v) k' = dictGet m k' := by
  have h' : ¬ k = k' := fun hc => h hc.symm
  induction m with
  | nil => simp [dictSet, dictGet, h']
  | cons hd tl ih =>
      obtain ⟨k₀, v₀⟩ := hd
      by_cases h0 : k₀ = k
      · subst h0
        simp [dictSet, dictGet, h']
      · simp [dictSet, dictGet, h0, ih]

/-- C5 counterexample: on an initialized cache, `set("quote", "AAPL",
{}, ttl=10)` at time 0 followed by `get("quote", "AAPL")` at time 5
(before the TTL elapses) returns the payload stamped with `_cached_at`
and `_cache_ttl` — not exactly the empty payload that was stored.  This
refutes the claim that the round trip returns exactly `v`. -/
theorem C5_roundtrip_counterexample :
    (cacheGet (cacheSet {} cacheStInit "quote" "AAPL" [] (some 10) 0
        "2026-01-01T00:00:00").1 "quote" "AAPL" 5).2
      = some (stampData [] "2026-01-01T00:00:00" 10) ∧
    stampData [] "2026-01-01T00:00:00" 10 ≠ ([] : JObj) ∧
    (cacheGet (cacheSet {} cacheStInit "quote" "AAPL" [] (some 10) 0
        "2026-01-01T00:00:00").1 "quote" "AAPL" 5).2 ≠ some ([] : JObj) := by
  refine ⟨by decide, by decide, by decide⟩

/-- C5 (amended): on an initialized cache, `set(cat, id, v, ttl=T)` with
`T > 0` at time `t0` followed by `get(cat, id)` at any time `t1 < t0 + T`
returns the stored payload `v` augmented with the `_cached_at` and
`_cache_ttl` stamps; every key of `v` other than the two stamp keys
still maps to its original value. -/
theorem C5_roundtrip_amended (cfg : CacheConfig) (st : CacheState)
    (dt id : String) (v : JObj) (T : Int) (t0 t1 : Int) (iso : String)
    (hinit : st.initialized = true) (hT : 0 < T) (h1 : t1 < t0 + T) :
    (cacheGet (cacheSet cfg st dt id v (some T) t0 iso).1 dt id t1).2
      = some (stampData v iso T) ∧
    (∀ k, k ≠ "_cached_at" → k ≠ "_cache_ttl" →
      dictGet (stampData v iso T) k = dictGet v k) := by
  constructor
  · have hTne : T ≠ 0 := by omega
    simp only [cacheSet, cacheGet, cacheGetWith, cacheTtlOf, hinit, storeGet,
      Bool.true_eq_false, if_false, hTne, if_neg hTne]
    simp only [dictGet_dictSet_self]
    simp [h1]
  · intro k hk1 hk2
    unfold stampData
    rw [dictGet_dictSet_ne _ _ _ _ hk2, dictGet_dictSet_ne _ _ _ _ hk1]

/-- C5 amended witness at a concrete instance. -/
theorem C5_roundtrip_amended_witness :
    (cacheGet (cacheSet {} cacheStInit "quote" "AAPL" payloadEx (some 10) 0
        "2026-01-01T00:00:00").1 "quote" "AAPL" 5).2
      = some (stampData payloadEx "2026-01-01T00:00:00" 10) :=
  (C5_roundtrip_amended {} cacheStInit "quote" "AAPL" payloadEx 10 0 5
    "2026-01-01T00:00:00" rfl (by decide) (by decide)).1

/-- C7: on any underlying-store error, `CacheService.get` degrades to a
miss (`None`), and `set` / `delete` degrade to a no-op (`False`), with
the service state untouched; no exception propagates past the service
boundary (the operations are total, the `except` branch producing the
degraded value). -/
theorem C7_store_errors_degrade (st : CacheState) (msg : String) :
    cacheGetWith st (StoreOutcome.err msg) = (st, none) ∧
    cacheSetWith st (StoreOutcome.err msg) = (st, false) ∧
    cacheDeleteWith st (StoreOutcome.err msg) = (st, false) := by
  refine ⟨?_, ?_, ?_⟩ <;>
    · simp only [cacheGetWith, cacheSetWith, cacheDeleteWith]
      split_ifs <;> rfl

/-- C8: `CacheService.set` with an explicit `ttl=0` behaves exactly as
if no TTL had been passed — Python `ttl or default` treats `0` as
absent — so the effective TTL is the category default, which is
positive for every category under the shipped configuration, and no
immediately-expiring entry is stored. -/
theorem C8_zero_ttl_replaced_by_default (cfg : CacheConfig) (dt : String) :
    cacheTtlOf cfg (some 0) dt = getTtlFor cfg dt ∧
    (∀ st id v t iso, cacheSet cfg st dt id v (some 0) t iso
        = cacheSet cfg st dt id v none t iso) ∧
    0 < getTtlFor ({} : CacheConfig) dt := by
  refine ⟨by simp [cacheTtlOf], fun st id v t iso => by simp [cacheSet, cacheTtlOf], ?_⟩
  unfold getTtlFor
  split_ifs <;> norm_num

/-- C9: symbol conversion is idempotent whenever the configured Indian
suffix itself ends in `".NS"` or `".BO"` (as the source default `".NS"`
does): converting twice equals converting once, a symbol already
carrying the `".NS"` or `".BO"` suffix is returned unchanged for market
`"IN"`, and symbols for every other market are returned unchanged. -/
theorem C9_convert_symbol_idempotent (sfx s m : String)
    (hsfx : ".NS".data <:+ sfx.data ∨ ".BO".data <:+ sfx.data) :
    convertSymbol sfx (convertSymbol sfx s m) m = convertSymbol sfx s m ∧
    (".NS".data <:+ s.data ∨ ".BO".data <:+ s.data → convertSymbol sfx s m = s) ∧
    (m ≠ "IN" → convertSymbol sfx s m = s) := by
  by_cases hm : m = "IN"
  · by_cases hs : ".NS".data <:+ s.data ∨ ".BO".data <:+ s.data
    · have h1 : convertSymbol sfx s m = s := by
        unfold convertSymbol
        rw [if_neg]
        intro hc
        exact hc.2 hs
      exact ⟨by rw [h1, h1], fun _ => h1, fun hne => absurd hm hne⟩
    · have h1 : convertSymbol sfx s m = s ++ sfx := by
        unfold convertSymbol
        rw [if_pos ⟨hm, hs⟩]
      have happ : ".NS".data <:+ (s ++ sfx).data ∨ ".BO".data <:+ (s ++ sfx).data := by
        rw [String.data_append]
        rcases hsfx with h | h
        · exact Or.inl (h.trans (List.suffix_append s.data sfx.data))
        · exact Or.inr (h.trans (List.suffix_append s.data sfx.data))
      have h2 : convertSymbol sfx (s ++ sfx) m = s ++ sfx := by
        unfold convertSymbol
        rw [if_neg]
        intro hc
        exact hc.2 happ
      exact ⟨by rw [h1, h2], fun hcon => absurd hcon hs, fun hne => absurd hm hne⟩
  · have h1 : convertSymbol sfx s m = s := by
      unfold convertSymbol
      rw [if_neg]
      intro hc
      exact hm hc.1
    exact ⟨by rw [h1, h1], fun _ => h1, fun _ => h1⟩

/-- C9 witness: the source-default suffix `".NS"` on a concrete Indian
symbol. -/
theorem C9_convert_symbol_idempotent_witness :
    convertSymbol ".NS" (convertSymbol ".NS" "RELIANCE" "IN") "IN"
      = convertSymbol ".NS" "RELIANCE" "IN" :=
  (C9_convert_symbol_idempotent ".NS" "RELIANCE" "IN" (by decide)).1

/-!  Helper lemmas about lazy counter resets. -/

theorem resetCounters_minute_of_lt (s : RateLimiterState) (now : Nat)
    (h : now < s.last_reset_minute + 60) :
    (resetCountersIfNeeded s now).minute_requests = s.minute_requests := by
  simp only [resetCountersIfNeeded]
  split_ifs <;> simp_all <;> omega

theorem resetCounters_hourly_of_lt (s : RateLimiterState) (now : Nat)
    (h : now < s.last_reset_hourly + 3600) :
    (resetCountersIfNeeded s now).hourly_requests = s.hourly_requests := by
  simp only [resetCountersIfNeeded]
  split_ifs <;> simp_all <;> omega

theorem resetCounters_daily_of_eq (s : RateLimiterState) (now : Nat)
    (h : now / 86400 = s.last_reset_daily) :
    (resetCountersIfNeeded s now).daily_requests = s.daily_requests := by
  simp only [resetCountersIfNeeded]
  split_ifs <;> simp_all

theorem resetCounters_all_crossed (s : RateLimiterState) (now : Nat)
    (h1 : now / 86400 ≠ s.last_reset_daily)
    (h2 : s.last_reset_hourly + 3600 ≤ now)
    (h3 : s.last_reset_minute + 60 ≤ now) :
    (resetCountersIfNeeded s now).daily_requests = 0 ∧
    (resetCountersIfNeeded s now).hourly_requests = 0 ∧
    (resetCountersIfNeeded s now).minute_requests = 0 := by
  simp only [resetCountersIfNeeded]
  split_ifs <;> simp_all

theorem acquirePermit_init_eq (cfg : RateLimitConfig) (s : RateLimiterState) (now : Nat)
    (h : s.initialized = true) :
    acquirePermit cfg s now =
      (if cfg.daily_limit ≤ (resetCountersIfNeeded s now).daily_requests then
         Except.ok (resetCountersIfNeeded s now, false)
       else if cfg.hourly_limit ≤ (resetCountersIfNeeded s now).hourly_requests then
         Except.ok (resetCountersIfNeeded s now, false)
       else if cfg.minute_limit ≤ (resetCountersIfNeeded s now).minute_requests then
         Except.ok (resetCountersIfNeeded s now, false)
       else Except.ok ({ resetCountersIfNeeded s now with
         active_requests := (resetCountersIfNeeded s now).active_requests + 1 }, true)) := by
  simp [acquirePermit, h]

/-- C3: on an initialized rate limiter, `acquire_permit` grants a
permit exactly when the daily, hourly and minute counters (after the
lazy window reset) are all strictly below their limits; a counter at or
above its window limit forces `false` for as long as the wall clock has
not crossed that window's boundary; and once all window boundaries are
crossed the counters reset to 0 and the permit is granted again
(assuming positive limits). -/
theorem C3_window_limits_gate_permits (cfg : RateLimitConfig) (s : RateLimiterState)
    (now : Nat) (hinit : s.initialized = true) :
    (∀ s₂ b, acquirePermit cfg s now = Except.ok (s₂, b) →
       (b = true ↔ (resetCountersIfNeeded s now).daily_requests < cfg.daily_limit ∧
         (resetCountersIfNeeded s now).hourly_requests < cfg.hourly_limit ∧
         (resetCountersIfNeeded s now).minute_requests < cfg.minute_limit)) ∧
    (cfg.minute_limit ≤ s.minute_requests → now < s.last_reset_minute + 60 →
       acquirePermit cfg s now = Except.ok (resetCountersIfNeeded s now, false)) ∧
    (cfg.hourly_limit ≤ s.hourly_requests → now < s.last_reset_hourly + 3600 →
       acquirePermit cfg s now = Except.ok (resetCountersIfNeeded s now, false)) ∧
    (cfg.daily_limit ≤ s.daily_requests → now / 86400 = s.last_reset_daily →
       acquirePermit cfg s now = Except.ok (resetCountersIfNeeded s now, false)) ∧
    (s.last_reset_minute + 60 ≤ now → s.last_reset_hourly + 3600 ≤ now →
       now / 86400 ≠ s.last_reset_daily →
       0 < cfg.daily_limit → 0 < cfg.hourly_limit → 0 < cfg.minute_limit →
       ∃ s₂, acquirePermit cfg s now = Except.ok (s₂, true) ∧
         s₂.daily_requests = 0 ∧ s₂.hourly_requests = 0 ∧ s₂.minute_requests = 0) := by
  refine ⟨?_, ?_, ?_, ?_, ?_⟩
  · intro s₂ b heq
    rw [acquirePermit_init_eq cfg s now hinit] at heq
    split_ifs at heq with h1 h2 h3 <;>
      cases heq <;> simp <;> omega
  · intro hcnt hwin
    have hpres := resetCounters_minute_of_lt s now hwin
    rw [acquirePermit_init_eq cfg s now hinit]
    split_ifs with h1 h2 h3 <;> first | rfl | omega
  · intro hcnt hwin
    have hpres := resetCounters_hourly_of_lt s now hwin
    rw [acquirePermit_init_eq cfg s now hinit]
    split_ifs with h1 h2 h3 <;> first | rfl | omega
  · intro hcnt hwin
    have hpres := resetCounters_daily_of_eq s now hwin
    rw [acquirePermit_init_eq cfg s now hinit]
    split_ifs with h1 h2 h3 <;> first | rfl | omega
  · intro hm hh hd hdl hhl hml
    obtain ⟨hz1, hz2, hz3⟩ := resetCounters_all_crossed s now hd hh hm
    rw [acquirePermit_init_eq cfg s now hinit]
    split_ifs with h1 h2 h3
    · omega
    · omega
    · omega
    · exact ⟨_, rfl, hz1, hz2, hz3⟩

/-- C3 witness: with the default limits, an initialized limiter whose
minute counter is at the minute limit is denied a permit 30 seconds
into the window. -/
theorem C3_window_limits_gate_permits_witness :
    acquirePermit {} sMinuteLimited 30
      = Except.ok (resetCountersIfNeeded sMinuteLimited 30, false) :=
  (C3_window_limits_gate_permits {} sMinuteLimited 30 rfl).2.1 (by decide) (by decide)

/-- C10: calling `acquire_permit` before `initialize()` raises
`RuntimeError("Rate limiter not initialized")`; on an initialized
limiter it never raises and always returns a boolean, and
`initialize()` establishes that state. -/
theorem C10_acquire_requires_init (cfg : RateLimitConfig) (s : RateLimiterState) (now : Nat) :
    (s.initialized = false →
       acquirePermit cfg s now = Except.error "Rate limiter not initialized") ∧
    (s.initialized = true → ∃ s₂ b, acquirePermit cfg s now = Except.ok (s₂, b)) ∧
    (∀ s₀ : RateLimiterState, ∃ s₂ b, acquirePermit cfg (initLimiter s₀) now
       = Except.ok (s₂, b)) := by
  have key : ∀ s' : RateLimiterState, s'.initialized = true →
      ∃ s₂ b, acquirePermit cfg s' now = Except.ok (s₂, b) := by
    intro s' h
    rw [acquirePermit_init_eq cfg s' now h]
    split_ifs <;> exact ⟨_, _, rfl⟩
  refine ⟨?_, key s, fun s₀ => key (initLimiter s₀) rfl⟩
  intro h
  unfold acquirePermit
  rw [if_pos h]

/-- C10 witness: an uninitialized limiter raises, and the same limiter
after `initialize()` returns a boolean. -/
theorem C10_acquire_requires_init_witness :
    acquirePermit {} ({} : RateLimiterState) 0
      = Except.error "Rate limiter not initialized" ∧
    ∃ s₂ b, acquirePermit {} (initLimiter ({} : RateLimiterState)) 0 = Except.ok (s₂, b) :=
  ⟨(C10_acquire_requires_init {} ({} : RateLimiterState) 0).1 rfl,
   (C10_acquire_requires_init {} ({} : RateLimiterState) 0).2.2 {}⟩

/-- C4 counterexample: with the exponential strategy, multiplier 2.0
and base delay 1.0 s, after 3 consecutive recorded failures a
`wait_if_needed` call made 0.5 s after the last request sleeps only
(1.0 − 0.5) · 2³ = 4 s — less than 8 times the base delay.  The
multiplier applies to the remaining delay, not to the base delay, so
the claimed lower bound fails. -/
theorem C4_backoff_counterexample :
    sThreeFailures.consecutive_errors = 3 ∧
    waitDelay cfgExp sThreeFailures (1/2) = 4 ∧
    ¬ (8 * cfgExp.delay_between_requests ≤ waitDelay cfgExp sThreeFailures (1/2)) := by
  refine ⟨by decide, ?_, ?_⟩ <;>
    norm_num [waitDelay, cfgExp, sThreeFailures, sInitEmpty, recordRequest, initLimiter]

/-- C4 (amended): three consecutive recorded failures leave
`consecutive_errors = 3`; under the exponential strategy with
multiplier 2.0 and base delay 1.0 s, a `wait_if_needed` call sleeps
`(base − elapsed) · 2^min(errors,5)`, which is at least 8 times the
base delay exactly when no time has elapsed since the last request
(`now ≤ last_request_time`). -/
theorem C4_backoff_amended (cfg : RateLimitConfig) (s : RateLimiterState) (now : ℚ)
    (hstrat : cfg.strategy = RateLimitStrategy.exponential_backoff)
    (hmult : cfg.backoff_multiplier = 2)
    (hbase : cfg.delay_between_requests = 1)
    (herr : s.consecutive_errors = 3)
    (helapsed : now ≤ s.last_request_time) :
    (∀ (s₀ : RateLimiterState) (t₁ t₂ t₃ : ℚ),
       (recordRequest (recordRequest (recordRequest s₀ false t₁) false t₂) false t₃).consecutive_errors
         = s₀.consecutive_errors + 3) ∧
    waitDelay cfg s now = (cfg.delay_between_requests - (now - s.last_request_time)) * 8 ∧
    8 * cfg.delay_between_requests ≤ waitDelay cfg s now := by
  have htsl : now - s.last_request_time ≤ 0 := by linarith
  have hcond : now - s.last_request_time < cfg.delay_between_requests := by
    rw [hbase]; linarith
  have hval : waitDelay cfg s now
      = (cfg.delay_between_requests - (now - s.last_request_time)) * 8 := by
    unfold waitDelay
    rw [if_pos hcond, if_pos ⟨hstrat, by omega⟩, herr, hmult]
    norm_num
  refine ⟨fun s₀ t₁ t₂ t₃ => by simp [recordRequest], hval, ?_⟩
  rw [hval, hbase]
  nlinarith [htsl]

/-- C4 amended witness: an immediate retry after three failures sleeps
exactly 8 s = 8 times the base delay. -/
theorem C4_backoff_amended_witness :
    8 * cfgExp.delay_between_requests ≤ waitDelay cfgExp sThreeFailures 0 :=
  (C4_backoff_amended cfgExp sThreeFailures 0 rfl rfl rfl (by decide)
    (by norm_num [sThreeFailures, sInitEmpty, recordRequest, initLimiter])).2.2

/-- C1 (code behaviour at the failing input): when the rate limiter
denies a permit, `_make_request` raises a plain
`Exception("Rate limit exceeded")`, immediately catches it in its own
`except Exception` block and returns `None` — exactly the value it
returns on a generic upstream failure.  The caller cannot distinguish
the two outcomes; `YahooRateLimitException` is never raised. -/
theorem C1_denial_collapsed_to_none :
    acquirePermit {} sMinuteLimited 30
      = Except.ok (resetCountersIfNeeded sMinuteLimited 30, false) ∧
    (makeRequest {} sMinuteLimited {} 30 30 (some payloadEx)).2.2 = none ∧
    (makeRequest {} sInitEmpty {} 30 30 (none : Option JObj)).2.2 = none ∧
    (makeRequest {} sMinuteLimited {} 30 30 (some payloadEx)).2.2
      = (makeRequest {} sInitEmpty {} 30 30 (none : Option JObj)).2.2 := by
  exact ⟨by rfl, by rfl, by rfl, by rfl⟩

/-- C2 (code behaviour at the failing input): when the upstream call
fails, `_execute_request` swallows the exception and returns `None`, so
`_make_request` takes its success path: it records the request as
successful with the rate limiter — resetting `consecutive_errors`
(here from 2 to 0) instead of incrementing it — counts a successful
request, and returns `None` to the caller. -/
theorem C2_upstream_failure_recorded_as_success :
    ((makeRequest {} sTwoErrors {} 30 30 (none : Option JObj)).1).consecutive_errors = 0 ∧
    ((makeRequest {} sTwoErrors {} 30 30 (none : Option JObj)).2.1).successful_requests = 1 ∧
    ((makeRequest {} sTwoErrors {} 30 30 (none : Option JObj)).2.1).failed_requests = 0 ∧
    (makeRequest {} sTwoErrors {} 30 30 (none : Option JObj)).2.2 = none := by
  exact ⟨by rfl, by rfl, by rfl, by rfl⟩

/-- C6: the global-context aggregation raises a
`ServiceUnavailableException` carrying the full list of missing keys
and the failed symbols whenever some critical key (`sp500`, `nasdaq` or
`vix`) could not be resolved; when only non-critical keys are missing,
the call succeeds and the missing keys are simply absent from the
response. -/
theorem C6_critical_keys_policy (inputs : List (String × Option QuoteData)) :
    (∀ k, k ∈ criticalKeys → k ∈ missingKeys (buildResponse inputs).1 →
       getGlobalContext inputs =
         Except.error ⟨missingKeys (buildResponse inputs).1, (buildResponse inputs).2⟩) ∧
    ((∀ k, k ∈ criticalKeys → k ∉ missingKeys (buildResponse inputs).1) →
       getGlobalContext inputs = Except.ok (buildResponse inputs).1 ∧
       ∀ k, k ∈ missingKeys (buildResponse inputs).1 →
         dictGet (buildResponse inputs).1 k = none) := by
  unfold getGlobalContext
  cases hsplit : buildResponse inputs with
  | mk resp failed =>
  dsimp only
  constructor
  · intro k hk hmem
    rw [if_pos]
    constructor
    · intro hnil
      rw [hnil] at hmem
      exact absurd hmem (List.not_mem_nil k)
    · rw [List.any_eq_true]
      refine ⟨k, hmem, ?_⟩
      rw [List.contains_iff_exists_mem_beq]
      exact ⟨k, hk, by simp⟩
  · intro hnone
    have hany : ¬ ((missingKeys resp).any (fun k => criticalKeys.contains k) = true) := by
      rw [List.any_eq_true]
      rintro ⟨k, hkmem, hkc⟩
      rw [List.contains_iff_exists_mem_beq] at hkc
      obtain ⟨a, ha, hbeq⟩ := hkc
      have hka : k = a := by simpa using hbeq
      exact hnone k (hka ▸ ha) hkmem
    constructor
    · rw [if_neg]
      intro hc
      exact hany hc.2
    · intro k hk
      have := List.of_mem_filter hk
      simpa [Option.isNone_iff_eq_none] using this

/-- C6 witness: with only `^VIX` unresolved, the call fails with the
service-unavailable detail carrying `missing = ["vix"]` and
`failed_symbols = ["^VIX"]`; with only gold unresolved, the call
succeeds and the `gold` key is absent. -/
theorem C6_critical_keys_policy_witness :
    getGlobalContext inputsVixMissing =
      Except.error ⟨missingKeys (buildResponse inputsVixMissing).1,
        (buildResponse inputsVixMissing).2⟩ ∧
    missingKeys (buildResponse inputsVixMissing).1 = ["vix"] ∧
    (buildResponse inputsVixMissing).2 = ["^VIX"] ∧
    getGlobalContext inputsGoldMissing = Except.ok (buildResponse inputsGoldMissing).1 ∧
    dictGet (buildResponse inputsGoldMissing).1 "gold" = none :=
  ⟨(C6_critical_keys_policy inputsVixMissing).1 "vix" (by decide) (by decide),
   by rfl, by rfl,
   ((C6_critical_keys_policy inputsGoldMissing).2 (by decide)).1,
   ((C6_critical_keys_policy inputsGoldMissing).2 (by decide)).2 "gold" (by decide)⟩

end YahooServices
